import Mathlib

/-!
Shallow embedding of the SMS-dispatch gateway core (github.com/alireza-karampour/sms):
the subject grammar and filter (pkg/utils/utils.go), the ingress API handler
SendSms (internal/controllers/Sms.go), the error-body middleware
(pkg/middlewares), and the dispatch worker (internal/workers, handler /
handleNormalSms / handleExpressSms) together with the SQL operations it runs
(queries.sql: AddSms, SubBalance, AddBalance).
-/

namespace SmsGw

/-- Modelled from the spec: the token constants of the internal/subjects package
(not under src); values follow the normative subject table and the literal
subjects in internal/controllers/Sms.go. -/
def SMS : String := "sms"

/-- Modelled from the spec: subjects-package token. -/
def SEND : String := "send"

/-- Modelled from the spec: subjects-package token. -/
def EX : String := "ex"

/-- Modelled from the spec: subjects-package token. -/
def REQ : String := "request"

/-- Modelled from the spec: subjects-package token. -/
def STAT : String := "status"

/-- Modelled from the spec: subjects-package token. -/
def ERR : String := "error"

/-- Modelled from the spec: subjects-package wildcard token, used as the single
position wildcard of Subject.Filter. -/
def ANY : String := "*"

/-- pkg/utils/utils.go MakeSubject: strings.Join of the tokens with a dot. -/
def MakeSubject (s : List String) : String :=
  String.intercalate "." s

/-- pkg/utils/utils.go Subject: a dotted subject string. -/
abbrev Subject := String

/-- Accumulating splitter over the character list: cut at every dot, keeping
empty fields, exactly as strings.Split does for a one-character separator. -/
def splitOnDotAux : List Char → List Char → List String
  | [], acc => [String.mk acc.reverse]
  | c :: cs, acc =>
    if c = '.' then String.mk acc.reverse :: splitOnDotAux cs []
    else splitOnDotAux cs (c :: acc)

/-- strings.Split(s, ".") as used by Subject.Filter. -/
def splitOnDot (s : String) : List String :=
  splitOnDotAux s.data []

/-- The loop body of Subject.Filter (pkg/utils/utils.go lines 31-38): walk the
two token lists in lockstep; a pattern token equal to the wildcard always
matches, otherwise the tokens must be equal; reaching the end yields true. -/
def filterLoop : List String → List String → Bool
  | p :: ps, q :: qs =>
    if q = "*" then filterLoop ps qs
    else if p = q then filterLoop ps qs
    else false
  | _, _ => true

/-- pkg/utils/utils.go Subject.Filter: split the subject on a dot; reject on a
length mismatch with the pattern, otherwise run the positional loop. -/
def Subject.Filter (s : Subject) (subs : List String) : Bool :=
  let parts := splitOnDot s
  if parts.length ≠ subs.length then false
  else filterLoop parts subs

/-- Modelled from the spec: the sqlc-generated Sm struct (sqlc/models.go is not
under src); its field set and json tags are given in docs/database-schema.md.
The generated id and delivered_at columns are filled by the database and are
not part of the request body or broker envelope. -/
structure Sm where
  UserID : Int
  PhoneNumberID : Int
  ToPhoneNumber : String
  Message : String
  Status : String
  deriving DecidableEq, Repr

/-- The mantissa/exponent representation of pgtype.Numeric as used by the API:
the value is mInt times ten to the exp. -/
structure Numeric where
  mInt : Int
  exp : Int
  deriving DecidableEq, Repr

/-- The numeric value denoted by a pgtype.Numeric. -/
def Numeric.val (n : Numeric) : ℚ :=
  (n.mInt : ℚ) * (10 : ℚ) ^ n.exp

/-- Rendering of a JSON string array, as encoding/json produces it for a
[]string value. Error messages are assumed to need no JSON escaping, which
holds for every literal this development evaluates. -/
def renderStrArr : List String → String
  | [] => "[]"
  | x :: xs =>
    "[\"" ++ x ++ "\"" ++ String.join (xs.map (fun y => ",\"" ++ y ++ "\"")) ++ "]"

/-- The body written by pkg/middlewares WriteErrorBody: after the handler
aborts with errors, it renders gin.H with the response status and the
collected, de-duplicated error strings. encoding/json marshals Go map keys in
sorted order, so the errors field precedes the status field. -/
def writeErrorBodyJson (status : Nat) (errors : List String) : String :=
  "\x7b\"errors\":" ++ renderStrArr errors ++ ",\"status\":" ++ toString status ++ "\x7d"

/-- The success body of SendSms: gin.H with msg OK. -/
def okBodyJson : String := "\x7b\"msg\":\"OK\"\x7d"

/-- The 403 body shape asserted by the spec, for comparison with the body the
code produces (a refinement check; this definition follows the spec's words,
not the source). -/
def specNotEnoughBalanceBody : String := "\x7b\"error\":\"not enough balance\"\x7d"

/-- The observable outcome of one POST /sms request: HTTP status, rendered
response body, and the message durably published to the broker, if any, as a
pair of subject and decoded envelope (json.Marshal followed by json.Unmarshal
is the identity on the Sm field set). -/
structure ApiResponse where
  status : Nat
  body : String
  published : Option (String × Sm)
  deriving DecidableEq, Repr

/-- internal/controllers/Sms.go SendSms. Inputs stand for the request and its
environment: the value the express query parameter would bind to, the result
of ctx.BindJSON on the request body, the result of GetBalance for the body's
user, the process-wide cost, and the result of the JetStream publish call
(none means success). The local query struct is created by new with the Go
zero value false for Express, and — exactly as in the source — the subject is
chosen from that zero value BEFORE ctx.BindQuery runs, so the bound flag is
never consulted. -/
def SendSms (cost : Numeric) (expressParam : Bool) (bindJson : Except String Sm)
    (getBalance : Except String Numeric) (publishErr : Option String) : ApiResponse :=
  let queryExpress0 : Bool := false
  let subject := if queryExpress0 then MakeSubject [SMS, EX, SEND, REQ]
    else MakeSubject [SMS, SEND, REQ]
  let _queryExpress1 : Bool := expressParam
  match bindJson with
  | .error e => { status := 400, body := writeErrorBodyJson 400 [e], published := none }
  | .ok sms =>
    match getBalance with
    | .error e => { status := 500, body := writeErrorBodyJson 500 [e], published := none }
    | .ok balance =>
      if balance.mInt < cost.mInt then
        { status := 403, body := writeErrorBodyJson 403 ["not enough balance"]
          published := none }
      else
        match publishErr with
        | some e => { status := 500, body := writeErrorBodyJson 500 [e], published := none }
        | none => { status := 200, body := okBodyJson, published := some (subject, sms) }

/-- One row of the sms table, as inserted by queries.sql AddSms (the id and
delivered_at columns are database-assigned and not constrained by the
claims). -/
structure SmsRow where
  UserID : Int
  PhoneNumberID : Int
  ToPhoneNumber : String
  Status : String
  Message : String
  deriving DecidableEq, Repr

/-- The shared database state the worker mutates: the sms delivery log and the
users' balances (exact decimal arithmetic, as Postgres numeric). -/
structure DbState where
  rows : List SmsRow
  balances : Int → ℚ

/-- Success or failure of each fallible step of the dispatch transaction:
db.Begin, AddSms, SubBalance, msg.DoubleAck and tx.Commit. -/
structure TxEnv where
  beginOk : Bool
  insertOk : Bool
  debitOk : Bool
  ackOk : Bool
  commitOk : Bool
  deriving DecidableEq, Repr

/-- The resolution the handler attempts on a message: TermWithReason,
NakWithDelay(time.Second), DoubleAck, or none at all. -/
inductive MsgAction where
  | term (reason : String)
  | nak1s
  | ack
  | noAction
  deriving DecidableEq, Repr

/-- What one handler invocation does: the database state it leaves behind,
whether a transaction was begun, whether it committed, and the resolution it
attempted on the message. -/
structure WorkerOutcome where
  db : DbState
  txBegun : Bool
  committed : Bool
  action : MsgAction

/-- The AddSms parameter tuple built in handleNormalSms / handleExpressSms
from the decoded payload. -/
def rowOf (sms : Sm) : SmsRow :=
  { UserID := sms.UserID, PhoneNumberID := sms.PhoneNumberID
    ToPhoneNumber := sms.ToPhoneNumber, Status := sms.Status
    Message := sms.Message }

/-- queries.sql AddSms: insert one row into the sms table. -/
def addSms (st : DbState) (sms : Sm) : DbState :=
  { st with rows := st.rows ++ [rowOf sms] }

/-- queries.sql SubBalance: balance := balance - amount for the given user,
returning the new balance. The update is unconditional; no check against the
remaining balance is made. -/
def subBalance (st : DbState) (u : Int) (amount : ℚ) : DbState × ℚ :=
  let nb := st.balances u - amount
  ({ st with balances := fun v => if v = u then nb else st.balances v }, nb)

/-- The request branch shared verbatim by handleNormalSms and handleExpressSms
(internal/workers, part_009 lines 143-203 and 227-289): decode the payload
(Term with the decode error on failure); begin a transaction (Nak 1s on
failure) with a deferred rollback; AddSms (Nak 1s on failure); SubBalance by
the configured cost (Nak 1s on failure); DoubleAck (on failure return, the
deferred rollback discards the transaction); finally tx.Commit, whose error
the source ignores — only a successful commit publishes the new state. -/
def dispatchRequest (st : DbState) (decoded : Except String Sm) (env : TxEnv)
    (cost : ℚ) : WorkerOutcome :=
  match decoded with
  | .error e => { db := st, txBegun := false, committed := false, action := .term e }
  | .ok sms =>
    if env.beginOk = false then
      { db := st, txBegun := false, committed := false, action := .nak1s }
    else if env.insertOk = false then
      { db := st, txBegun := true, committed := false, action := .nak1s }
    else if env.debitOk = false then
      { db := st, txBegun := true, committed := false, action := .nak1s }
    else if env.ackOk = false then
      { db := st, txBegun := true, committed := false, action := .ack }
    else if env.commitOk = false then
      { db := st, txBegun := true, committed := false, action := .ack }
    else
      { db := (subBalance (addSms st sms) sms.UserID cost).1
        txBegun := true, committed := true, action := .ack }

/-- internal/workers handleNormalSms: switch on the trailing token of the
3-token subject; a request runs the dispatch transaction, a status message is
double-acked, and any other subject — including sms.send.error — matches no
case and falls through with no action. -/
def handleNormalSms (st : DbState) (subject : Subject) (decoded : Except String Sm)
    (env : TxEnv) (cost : ℚ) : WorkerOutcome :=
  if Subject.Filter subject [ANY, ANY, REQ] then
    dispatchRequest st decoded env cost
  else if Subject.Filter subject [ANY, ANY, STAT] then
    { db := st, txBegun := false, committed := false, action := .ack }
  else
    { db := st, txBegun := false, committed := false, action := .noAction }

/-- internal/workers handleExpressSms: the same switch over 4-token subjects;
sms.ex.send.error matches no case. -/
def handleExpressSms (st : DbState) (subject : Subject) (decoded : Except String Sm)
    (env : TxEnv) (cost : ℚ) : WorkerOutcome :=
  if Subject.Filter subject [ANY, ANY, ANY, REQ] then
    dispatchRequest st decoded env cost
  else if Subject.Filter subject [ANY, ANY, ANY, STAT] then
    { db := st, txBegun := false, committed := false, action := .ack }
  else
    { db := st, txBegun := false, committed := false, action := .noAction }

/-- internal/workers handler: route by subject shape to the normal or express
sub-handler. -/
def handler (st : DbState) (subject : Subject) (decoded : Except String Sm)
    (env : TxEnv) (cost : ℚ) : WorkerOutcome :=
  if Subject.Filter subject [SMS, SEND, ANY] then
    handleNormalSms st subject decoded env cost
  else if Subject.Filter subject [SMS, EX, ANY, ANY] then
    handleExpressSms st subject decoded env cost
  else
    { db := st, txBegun := false, committed := false, action := .noAction }

/-- A core balance-mutating operation: an administrative credit (queries.sql
AddBalance) or one worker dispatch of a request message. -/
inductive Op where
  | credit (u : Int) (amt : ℚ)
  | dispatch (decoded : Except String Sm) (env : TxEnv)

/-- Effect of one operation on the database state. -/
def applyOp (cost : ℚ) (st : DbState) : Op → DbState
  | .credit u amt =>
    { st with balances := fun v => if v = u then st.balances v + amt else st.balances v }
  | .dispatch decoded env => (dispatchRequest st decoded env cost).db

/-- Effect of a sequence of operations. -/
def applyOps (cost : ℚ) (st : DbState) (ops : List Op) : DbState :=
  ops.foldl (applyOp cost) st

/-- Whether every credit in a sequence adds a non-negative amount. -/
def creditsNonneg (ops : List Op) : Bool :=
  ops.all fun op =>
    match op with
    | .credit _ amt => decide (0 ≤ amt)
    | .dispatch _ _ => true

/-- Whether every dispatch in a sequence is applied in a state where the
sender's balance is at least the configured cost (the admission discipline
the spec attributes to the system). -/
def guarded (cost : ℚ) : DbState → List Op → Bool
  | _, [] => true
  | st, op :: ops =>
    (match op with
     | .dispatch (.ok sms) _ => decide (cost ≤ st.balances sms.UserID)
     | _ => true) && guarded cost (applyOp cost st op) ops

/-- Count of sms rows whose payload tuple (user, source number, destination,
message) equals the given payload. -/
def countPayload (rows : List SmsRow) (sms : Sm) : Nat :=
  (rows.filter fun r =>
    r.UserID = sms.UserID ∧ r.PhoneNumberID = sms.PhoneNumberID
      ∧ r.ToPhoneNumber = sms.ToPhoneNumber ∧ r.Message = sms.Message).length

theorem filterLoop_iff : ∀ (ps qs : List String), ps.length = qs.length →
    (filterLoop ps qs = true ↔
      ∀ i (h1 : i < ps.length) (h2 : i < qs.length),
        qs.get ⟨i, h2⟩ = "*" ∨ ps.get ⟨i, h1⟩ = qs.get ⟨i, h2⟩) := by
  intro ps
  induction ps with
  | nil =>
    intro qs h
    cases qs with
    | nil =>
      refine ⟨fun _ i h1 h2 => absurd h1 (by simp), fun _ => rfl⟩
    | cons q qs => simp at h
  | cons p ps ih =>
    intro qs h
    cases qs with
    | nil => simp at h
    | cons q qs =>
      have h' : ps.length = qs.length := by simpa using h
      constructor
      · intro hf
        have hsplit : (q = "*" ∨ p = q) ∧ filterLoop ps qs = true := by
          by_cases hq : q = "*"
          · simp only [filterLoop, hq, if_true] at hf
            exact ⟨Or.inl hq, hf⟩
          · by_cases hp : p = q
            · simp only [filterLoop, if_neg hq, hp, if_true] at hf
              exact ⟨Or.inr hp, hf⟩
            · simp [filterLoop, hq, hp] at hf
        intro i h1 h2
        match i with
        | 0 =>
          rcases hsplit.1 with hq | hp
          · exact Or.inl hq
          · exact Or.inr hp
        | j + 1 =>
          have h1' : j < ps.length := by simpa using h1
          have h2' : j < qs.length := by simpa using h2
          exact ((ih qs h').mp hsplit.2) j h1' h2'
      · intro hall
        have h0 : q = "*" ∨ p = q := hall 0 (by simp) (by simp)
        have hrest : ∀ j (hj1 : j < ps.length) (hj2 : j < qs.length),
            qs.get ⟨j, hj2⟩ = "*" ∨ ps.get ⟨j, hj1⟩ = qs.get ⟨j, hj2⟩ :=
          fun j hj1 hj2 => hall (j + 1) (by simpa using hj1) (by simpa using hj2)
        have htail := (ih qs h').mpr hrest
        rcases h0 with hq | hp
        · simp [filterLoop, hq, htail]
        · by_cases hq : q = "*"
          · simp [filterLoop, hq, htail]
          · simp [filterLoop, hq, hp, htail]

/-- C9: Subject.Filter S P is true exactly when splitting S on a dot gives as
many tokens as the pattern has, and at every position the pattern token is the
wildcard or the two tokens coincide; any length mismatch is rejected, so no
multi-token wildcard exists. -/
theorem c9_subject_filter_iff (S : Subject) (P : List String) :
    Subject.Filter S P = true ↔
      ((splitOnDot S).length = P.length ∧
        ∀ i (h1 : i < (splitOnDot S).length) (h2 : i < P.length),
          P.get ⟨i, h2⟩ = "*" ∨ (splitOnDot S).get ⟨i, h1⟩ = P.get ⟨i, h2⟩) := by
  by_cases hl : (splitOnDot S).length = P.length
  · simp only [Subject.Filter, hl, ne_eq, not_true_eq_false, if_false]
    rw [filterLoop_iff (splitOnDot S) P hl]
    simp [hl]
  · simp only [Subject.Filter, ne_eq, hl, not_false_eq_true, if_true]
    simp [hl]

/-- C8: a request message whose payload does not decode terminates with Term
carrying the decode error as reason, begins no transaction, inserts no row and
changes no balance, on the normal and the express request subject alike. -/
theorem c8_malformed_payload_term (st : DbState) (e : String) (env : TxEnv) (cost : ℚ) :
    handler st (MakeSubject [SMS, SEND, REQ]) (.error e) env cost =
      { db := st, txBegun := false, committed := false, action := .term e } ∧
    handler st (MakeSubject [SMS, EX, SEND, REQ]) (.error e) env cost =
      { db := st, txBegun := false, committed := false, action := .term e } :=
  ⟨rfl, rfl⟩

theorem countPayload_append_rowOf (rows : List SmsRow) (sms : Sm) :
    countPayload (rows ++ [rowOf sms]) sms = countPayload rows sms + 1 := by
  unfold countPayload
  rw [List.filter_append]
  simp [rowOf]

/-- C1: when the dispatch transaction of a request message commits, the sms
log is extended by exactly the payload row — so the count of rows carrying the
payload tuple grows by exactly one — and the sender's balance drops by exactly
the configured cost, every other balance unchanged, for every payload, every
prior state and every cost. -/
theorem c1_commit_inserts_once_and_debits (st : DbState) (sms : Sm) (env : TxEnv)
    (cost : ℚ) (h : (dispatchRequest st (.ok sms) env cost).committed = true) :
    (dispatchRequest st (.ok sms) env cost).db.rows = st.rows ++ [rowOf sms] ∧
    countPayload (dispatchRequest st (.ok sms) env cost).db.rows sms
      = countPayload st.rows sms + 1 ∧
    (dispatchRequest st (.ok sms) env cost).db.balances sms.UserID
      = st.balances sms.UserID - cost ∧
    ∀ u, u ≠ sms.UserID →
      (dispatchRequest st (.ok sms) env cost).db.balances u = st.balances u := by
  rcases env with ⟨b1, b2, b3, b4, b5⟩
  cases b1 <;> cases b2 <;> cases b3 <;> cases b4 <;> cases b5 <;>
    simp_all [dispatchRequest, addSms, subBalance, countPayload_append_rowOf]

/-- Closed instance of the C1 theorem: a committing dispatch at a concrete
payload and state. -/
theorem c1_commit_inserts_once_and_debits_witness :
    (dispatchRequest { rows := [], balances := fun _ => (100 : ℚ) }
        (.ok { UserID := 1, PhoneNumberID := 2, ToPhoneNumber := "+0987654321"
               Message := "hi", Status := "pending" })
        { beginOk := true, insertOk := true, debitOk := true, ackOk := true, commitOk := true }
        5).committed = true ∧
    ((dispatchRequest { rows := [], balances := fun _ => (100 : ℚ) }
        (.ok { UserID := 1, PhoneNumberID := 2, ToPhoneNumber := "+0987654321"
               Message := "hi", Status := "pending" })
        { beginOk := true, insertOk := true, debitOk := true, ackOk := true, commitOk := true }
        5).db.rows =
      [] ++ [rowOf { UserID := 1, PhoneNumberID := 2, ToPhoneNumber := "+0987654321"
                     Message := "hi", Status := "pending" }] ∧
    countPayload (dispatchRequest { rows := [], balances := fun _ => (100 : ℚ) }
        (.ok { UserID := 1, PhoneNumberID := 2, ToPhoneNumber := "+0987654321"
               Message := "hi", Status := "pending" })
        { beginOk := true, insertOk := true, debitOk := true, ackOk := true, commitOk := true }
        5).db.rows { UserID := 1, PhoneNumberID := 2, ToPhoneNumber := "+0987654321"
                     Message := "hi", Status := "pending" }
      = countPayload []
          { UserID := 1, PhoneNumberID := 2, ToPhoneNumber := "+0987654321"
            Message := "hi", Status := "pending" } + 1 ∧
    (dispatchRequest { rows := [], balances := fun _ => (100 : ℚ) }
        (.ok { UserID := 1, PhoneNumberID := 2, ToPhoneNumber := "+0987654321"
               Message := "hi", Status := "pending" })
        { beginOk := true, insertOk := true, debitOk := true, ackOk := true, commitOk := true }
        5).db.balances 1 = (100 : ℚ) - 5 ∧
    ∀ u, u ≠ (1 : Int) →
      (dispatchRequest { rows := [], balances := fun _ => (100 : ℚ) }
        (.ok { UserID := 1, PhoneNumberID := 2, ToPhoneNumber := "+0987654321"
               Message := "hi", Status := "pending" })
        { beginOk := true, insertOk := true, debitOk := true, ackOk := true, commitOk := true }
        5).db.balances u = (100 : ℚ)) :=
  ⟨by decide,
   c1_commit_inserts_once_and_debits
     { rows := [], balances := fun _ => (100 : ℚ) }
     { UserID := 1, PhoneNumberID := 2, ToPhoneNumber := "+0987654321"
       Message := "hi", Status := "pending" }
     { beginOk := true, insertOk := true, debitOk := true, ackOk := true, commitOk := true }
     5 (by decide)⟩

/-- C2: if beginning the transaction, the insert, the debit or the double-ack
fails, the transaction does not commit: the sms log and every balance are left
exactly as before; a begin, insert or debit failure naks with the one-second
delay, and a double-ack failure leaves the message for redelivery after the
ack attempt. -/
theorem c2_failure_rolls_back (st : DbState) (sms : Sm) (env : TxEnv) (cost : ℚ)
    (h : env.beginOk = false ∨ env.insertOk = false ∨ env.debitOk = false
      ∨ env.ackOk = false) :
    (dispatchRequest st (.ok sms) env cost).committed = false ∧
    (dispatchRequest st (.ok sms) env cost).db = st ∧
    ((env.beginOk = false ∨ env.insertOk = false ∨ env.debitOk = false) →
      (dispatchRequest st (.ok sms) env cost).action = .nak1s) ∧
    (env.beginOk = true → env.insertOk = true → env.debitOk = true →
      env.ackOk = false → (dispatchRequest st (.ok sms) env cost).action = .ack) := by
  rcases env with ⟨b1, b2, b3, b4, b5⟩
  cases b1 <;> cases b2 <;> cases b3 <;> cases b4 <;> cases b5 <;>
    simp_all [dispatchRequest]

/-- Closed instance of the C2 theorem: an insert failure at a concrete payload
and state naks and leaves the state untouched. -/
theorem c2_failure_rolls_back_witness :
    (({ beginOk := true, insertOk := false, debitOk := true, ackOk := true
        commitOk := true } : TxEnv).beginOk = false ∨
      ({ beginOk := true, insertOk := false, debitOk := true, ackOk := true
         commitOk := true } : TxEnv).insertOk = false ∨
      ({ beginOk := true, insertOk := false, debitOk := true, ackOk := true
         commitOk := true } : TxEnv).debitOk = false ∨
      ({ beginOk := true, insertOk := false, debitOk := true, ackOk := true
         commitOk := true } : TxEnv).ackOk = false) ∧
    ((dispatchRequest { rows := [], balances := fun _ => (100 : ℚ) }
        (.ok { UserID := 1, PhoneNumberID := 2, ToPhoneNumber := "+0987654321"
               Message := "hi", Status := "pending" })
        { beginOk := true, insertOk := false, debitOk := true, ackOk := true
          commitOk := true } 5).committed = false ∧
      (dispatchRequest { rows := [], balances := fun _ => (100 : ℚ) }
        (.ok { UserID := 1, PhoneNumberID := 2, ToPhoneNumber := "+0987654321"
               Message := "hi", Status := "pending" })
        { beginOk := true, insertOk := false, debitOk := true, ackOk := true
          commitOk := true } 5).db = { rows := [], balances := fun _ => (100 : ℚ) } ∧
      ((({ beginOk := true, insertOk := false, debitOk := true, ackOk := true
           commitOk := true } : TxEnv).beginOk = false ∨
        ({ beginOk := true, insertOk := false, debitOk := true, ackOk := true
           commitOk := true } : TxEnv).insertOk = false ∨
        ({ beginOk := true, insertOk := false, debitOk := true, ackOk := true
           commitOk := true } : TxEnv).debitOk = false) →
        (dispatchRequest { rows := [], balances := fun _ => (100 : ℚ) }
          (.ok { UserID := 1, PhoneNumberID := 2, ToPhoneNumber := "+0987654321"
                 Message := "hi", Status := "pending" })
          { beginOk := true, insertOk := false, debitOk := true, ackOk := true
            commitOk := true } 5).action = .nak1s) ∧
      (({ beginOk := true, insertOk := false, debitOk := true, ackOk := true
          commitOk := true } : TxEnv).beginOk = true →
        ({ beginOk := true, insertOk := false, debitOk := true, ackOk := true
           commitOk := true } : TxEnv).insertOk = true →
        ({ beginOk := true, insertOk := false, debitOk := true, ackOk := true
           commitOk := true } : TxEnv).debitOk = true →
        ({ beginOk := true, insertOk := false, debitOk := true, ackOk := true
           commitOk := true } : TxEnv).ackOk = false →
        (dispatchRequest { rows := [], balances := fun _ => (100 : ℚ) }
          (.ok { UserID := 1, PhoneNumberID := 2, ToPhoneNumber := "+0987654321"
                 Message := "hi", Status := "pending" })
          { beginOk := true, insertOk := false, debitOk := true, ackOk := true
            commitOk := true } 5).action = .ack)) :=
  ⟨Or.inr (Or.inl rfl),
   c2_failure_rolls_back { rows := [], balances := fun _ => (100 : ℚ) }
     { UserID := 1, PhoneNumberID := 2, ToPhoneNumber := "+0987654321"
       Message := "hi", Status := "pending" }
     { beginOk := true, insertOk := false, debitOk := true, ackOk := true
       commitOk := true } 5 (Or.inr (Or.inl rfl))⟩

/-- C3 counterexample: a message on sms.send.error reaches handleNormalSms,
matches neither the request nor the status case, and is returned with no Ack,
Nak or Term at all — it is neither logged-and-acknowledged nor otherwise
resolved, refuting the claim at this concrete input. -/
theorem c3_error_subject_unresolved_counterexample :
    (handler { rows := [], balances := fun _ => (0 : ℚ) }
      (MakeSubject [SMS, SEND, ERR])
      (.ok { UserID := 1, PhoneNumberID := 1, ToPhoneNumber := "+1"
             Message := "m", Status := "pending" })
      { beginOk := true, insertOk := true, debitOk := true, ackOk := true
        commitOk := true } 5).action = .noAction := by
  decide

/-- C3 amended: on the four request and status subjects the handler attempts
exactly one resolution — Term, Nak or a double-Ack — before returning, but a
message on sms.send.error or sms.ex.send.error matches no case of the
sub-handlers and is returned with no resolution attempt. -/
theorem c3_amended_resolution_per_subject (st : DbState) (decoded : Except String Sm)
    (env : TxEnv) (cost : ℚ) :
    (handler st (MakeSubject [SMS, SEND, REQ]) decoded env cost).action ≠ .noAction ∧
    (handler st (MakeSubject [SMS, SEND, STAT]) decoded env cost).action = .ack ∧
    (handler st (MakeSubject [SMS, EX, SEND, REQ]) decoded env cost).action ≠ .noAction ∧
    (handler st (MakeSubject [SMS, EX, SEND, STAT]) decoded env cost).action = .ack ∧
    (handler st (MakeSubject [SMS, SEND, ERR]) decoded env cost).action = .noAction ∧
    (handler st (MakeSubject [SMS, EX, SEND, ERR]) decoded env cost).action = .noAction := by
  have hn : handler st (MakeSubject [SMS, SEND, REQ]) decoded env cost
      = dispatchRequest st decoded env cost := rfl
  have he : handler st (MakeSubject [SMS, EX, SEND, REQ]) decoded env cost
      = dispatchRequest st decoded env cost := rfl
  refine ⟨?_, rfl, ?_, rfl, rfl, rfl⟩ <;>
  · first
      | rw [hn]
      | rw [he]
    rcases decoded with e | sms
    · simp [dispatchRequest]
    · rcases env with ⟨b1, b2, b3, b4, b5⟩
      cases b1 <;> cases b2 <;> cases b3 <;> cases b4 <;> cases b5 <;>
        simp [dispatchRequest]

/-- C4: the worker-bound subject is chosen from the zero value of the query
struct before ctx.BindQuery runs, so a request with express set to true, a
valid body and a sufficient balance is accepted with 200 yet published on
sms.send.request — not on sms.ex.send.request as the claim and the repository
documentation state. -/
theorem c4_express_flag_ignored :
    (SendSms { mInt := 500, exp := -2 } true
      (.ok { UserID := 1, PhoneNumberID := 1, ToPhoneNumber := "+0987654321"
             Message := "hi", Status := "pending" })
      (.ok { mInt := 10000, exp := -2 }) none).status = 200 ∧
    (SendSms { mInt := 500, exp := -2 } true
      (.ok { UserID := 1, PhoneNumberID := 1, ToPhoneNumber := "+0987654321"
             Message := "hi", Status := "pending" })
      (.ok { mInt := 10000, exp := -2 }) none).published =
      some (MakeSubject [SMS, SEND, REQ],
        { UserID := 1, PhoneNumberID := 1, ToPhoneNumber := "+0987654321"
          Message := "hi", Status := "pending" }) := by
  decide

/-- C5 counterexample: with a balance of mantissa 100 and exponent 0 (value
one hundred) and a cost of mantissa 500 and exponent minus two (value five),
the numeric balance exceeds the cost, yet the API takes the 403 branch
because it compares the raw mantissas 100 and 500. -/
theorem c5_mantissa_compare_counterexample :
    (SendSms { mInt := 500, exp := -2 } false
      (.ok { UserID := 1, PhoneNumberID := 1, ToPhoneNumber := "+1"
             Message := "m", Status := "pending" })
      (.ok { mInt := 100, exp := 0 }) none).status = 403 ∧
    Numeric.val { mInt := 500, exp := -2 } < Numeric.val { mInt := 100, exp := 0 } := by
  constructor
  · decide
  · norm_num [Numeric.val]

/-- C5 amended: the admission comparison is over the integer mantissas alone —
the 403 branch is taken exactly when the balance mantissa is less than the
cost mantissa, the decimal exponents playing no role. -/
theorem c5_amended_mantissa_compare (cost : Numeric) (express : Bool) (sms : Sm)
    (bal : Numeric) (pub : Option String) :
    (SendSms cost express (.ok sms) (.ok bal) pub).status = 403
      ↔ bal.mInt < cost.mInt := by
  by_cases hlt : bal.mInt < cost.mInt
  · simp [SendSms, hlt]
  · cases pub <;> simp [SendSms, hlt]

/-- C6 counterexample: at a balance of 1.00 against a cost of 5.00 the API
does answer 403 and publish nothing, but the body written by the WriteErrorBody
middleware is the status-and-errors object, not the single error field object
the claim states. -/
theorem c6_error_body_counterexample :
    (SendSms { mInt := 500, exp := -2 } false
      (.ok { UserID := 1, PhoneNumberID := 1, ToPhoneNumber := "+1"
             Message := "m", Status := "pending" })
      (.ok { mInt := 100, exp := -2 }) none).status = 403 ∧
    (SendSms { mInt := 500, exp := -2 } false
      (.ok { UserID := 1, PhoneNumberID := 1, ToPhoneNumber := "+1"
             Message := "m", Status := "pending" })
      (.ok { mInt := 100, exp := -2 }) none).body
      = writeErrorBodyJson 403 ["not enough balance"] ∧
    (SendSms { mInt := 500, exp := -2 } false
      (.ok { UserID := 1, PhoneNumberID := 1, ToPhoneNumber := "+1"
             Message := "m", Status := "pending" })
      (.ok { mInt := 100, exp := -2 }) none).body ≠ specNotEnoughBalanceBody ∧
    (SendSms { mInt := 500, exp := -2 } false
      (.ok { UserID := 1, PhoneNumberID := 1, ToPhoneNumber := "+1"
             Message := "m", Status := "pending" })
      (.ok { mInt := 100, exp := -2 }) none).published = none ∧
    Numeric.val { mInt := 100, exp := -2 } < Numeric.val { mInt := 500, exp := -2 } := by
  refine ⟨by decide, by decide, by decide, by decide, ?_⟩
  norm_num [Numeric.val]

/-- C6 amended: whenever the mantissa comparison the code performs classifies
the balance as below the cost, the API answers 403 with the middleware's
status-and-errors JSON body and publishes nothing on any subject. -/
theorem c6_amended_forbidden_response (cost : Numeric) (express : Bool) (sms : Sm)
    (bal : Numeric) (pub : Option String) (h : bal.mInt < cost.mInt) :
    SendSms cost express (.ok sms) (.ok bal) pub =
      { status := 403, body := writeErrorBodyJson 403 ["not enough balance"]
        published := none } := by
  simp [SendSms, h]

/-- Closed instance of the C6 amended theorem at a concrete request. -/
theorem c6_amended_forbidden_response_witness :
    ({ mInt := 100, exp := -2 } : Numeric).mInt < ({ mInt := 500, exp := -2 } : Numeric).mInt ∧
    SendSms { mInt := 500, exp := -2 } false
      (.ok { UserID := 1, PhoneNumberID := 1, ToPhoneNumber := "+1"
             Message := "m", Status := "pending" })
      (.ok { mInt := 100, exp := -2 }) none =
      { status := 403, body := writeErrorBodyJson 403 ["not enough balance"]
        published := none } :=
  ⟨by decide,
   c6_amended_forbidden_response { mInt := 500, exp := -2 } false
     { UserID := 1, PhoneNumberID := 1, ToPhoneNumber := "+1"
       Message := "m", Status := "pending" }
     { mInt := 100, exp := -2 } none (by decide)⟩

/-- C7 counterexample: a client-supplied status of delivered survives into
the published envelope unchanged — the envelope does not carry status pending,
refuting the claim at this concrete accepted request. -/
theorem c7_status_passthrough_counterexample :
    (SendSms { mInt := 5, exp := 0 } false
      (.ok { UserID := 1, PhoneNumberID := 1, ToPhoneNumber := "+1"
             Message := "hi", Status := "delivered" })
      (.ok { mInt := 100, exp := 0 }) none).published =
      some (MakeSubject [SMS, SEND, REQ],
        { UserID := 1, PhoneNumberID := 1, ToPhoneNumber := "+1"
          Message := "hi", Status := "delivered" }) ∧
    ("delivered" : String) ≠ "pending" := by
  decide

/-- C7 amended: for every accepted POST /sms body the published envelope
decodes to exactly the bound request body — user_id, phone_number_id,
to_phone_number and message are preserved, and status is whatever the client
supplied (the empty Go zero value when omitted), never rewritten to pending —
published on sms.send.request. -/
theorem c7_amended_envelope_is_body (cost : Numeric) (express : Bool) (sms : Sm)
    (bal : Numeric) (h : ¬ bal.mInt < cost.mInt) :
    SendSms cost express (.ok sms) (.ok bal) none =
      { status := 200, body := okBodyJson
        published := some (MakeSubject [SMS, SEND, REQ], sms) } := by
  simp [SendSms, h]

/-- Closed instance of the C7 amended theorem at a concrete request. -/
theorem c7_amended_envelope_is_body_witness :
    ¬ ({ mInt := 10000, exp := -2 } : Numeric).mInt
        < ({ mInt := 500, exp := -2 } : Numeric).mInt ∧
    SendSms { mInt := 500, exp := -2 } false
      (.ok { UserID := 1, PhoneNumberID := 1, ToPhoneNumber := "+1"
             Message := "hi", Status := "delivered" })
      (.ok { mInt := 10000, exp := -2 }) none =
      { status := 200, body := okBodyJson
        published := some (MakeSubject [SMS, SEND, REQ],
          { UserID := 1, PhoneNumberID := 1, ToPhoneNumber := "+1"
            Message := "hi", Status := "delivered" }) } :=
  ⟨by decide,
   c7_amended_envelope_is_body { mInt := 500, exp := -2 } false
     { UserID := 1, PhoneNumberID := 1, ToPhoneNumber := "+1"
       Message := "hi", Status := "delivered" }
     { mInt := 10000, exp := -2 } (by decide)⟩

theorem dispatch_balances_cases (st : DbState) (decoded : Except String Sm)
    (env : TxEnv) (cost : ℚ) (u : Int) :
    (dispatchRequest st decoded env cost).db.balances u = st.balances u ∨
    ((dispatchRequest st decoded env cost).db.balances u = st.balances u - cost ∧
      ∃ sms, decoded = .ok sms ∧ u = sms.UserID) := by
  rcases decoded with e | sms
  · exact Or.inl rfl
  · rcases env with ⟨b1, b2, b3, b4, b5⟩
    by_cases hall : b1 = true ∧ b2 = true ∧ b3 = true ∧ b4 = true ∧ b5 = true
    · obtain ⟨e1, e2, e3, e4, e5⟩ := hall
      subst e1; subst e2; subst e3; subst e4; subst e5
      by_cases hu : u = sms.UserID
      · refine Or.inr ⟨?_, sms, rfl, hu⟩
        simp [dispatchRequest, addSms, subBalance, hu]
      · refine Or.inl ?_
        simp [dispatchRequest, addSms, subBalance, hu]
    · left
      cases b1 <;> cases b2 <;> cases b3 <;> cases b4 <;> cases b5 <;>
        simp_all [dispatchRequest]

/-- C10 counterexample: a user created with the non-negative balance zero is
driven negative by one committing worker dispatch, because SubBalance debits
the configured cost unconditionally — the worker does not stop at the
remaining balance. -/
theorem c10_negative_balance_counterexample :
    (0 : ℚ) ≤ ({ rows := [], balances := fun _ => (0 : ℚ) } : DbState).balances 1 ∧
    (dispatchRequest { rows := [], balances := fun _ => (0 : ℚ) }
      (.ok { UserID := 1, PhoneNumberID := 1, ToPhoneNumber := "+1"
             Message := "m", Status := "pending" })
      { beginOk := true, insertOk := true, debitOk := true, ackOk := true
        commitOk := true } 5).db.balances 1 < 0 := by
  constructor
  · exact le_refl 0
  · norm_num [dispatchRequest, addSms, subBalance]

/-- C10 amended: non-negativity of balances is not preserved by the worker on
its own — the dispatch transaction debits the cost unconditionally — but it is
an invariant of runs in which every credit is non-negative and every dispatch
happens in a state where the sender's balance covers the cost, which is the
admission discipline the spec describes. -/
theorem c10_amended_guarded_nonneg (cost : ℚ) (ops : List Op) (st : DbState)
    (h0 : ∀ u, 0 ≤ st.balances u) (hc : creditsNonneg ops = true)
    (hg : guarded cost st ops = true) (u : Int) :
    0 ≤ (applyOps cost st ops).balances u := by
  induction ops generalizing st with
  | nil => exact h0 u
  | cons op ops ih =>
    match op with
    | Op.credit w amt =>
      have hc0 : ((0 : ℚ) ≤ amt) ∧ creditsNonneg ops = true := by
        simpa [creditsNonneg] using hc
      have hg' : guarded cost (applyOp cost st (Op.credit w amt)) ops = true := by
        simpa [guarded] using hg
      refine ih (applyOp cost st (Op.credit w amt)) ?_ hc0.2 hg'
      intro v
      by_cases hv : v = w
      · have hb : (applyOp cost st (Op.credit w amt)).balances v
            = st.balances v + amt := by simp [applyOp, hv]
        rw [hb]
        exact add_nonneg (h0 v) hc0.1
      · have hb : (applyOp cost st (Op.credit w amt)).balances v = st.balances v := by
          simp [applyOp, hv]
        rw [hb]
        exact h0 v
    | Op.dispatch decoded env =>
      have hc0 : creditsNonneg ops = true := by simpa [creditsNonneg] using hc
      rcases decoded with e | sms
      · have hg' : guarded cost (applyOp cost st (Op.dispatch (Except.error e) env))
            ops = true := by simpa [guarded] using hg
        refine ih _ ?_ hc0 hg'
        intro v
        rcases dispatch_balances_cases st (Except.error e) env cost v with
          hsame | ⟨hdeb, sms, hok, hv⟩
        · rw [show (applyOp cost st (Op.dispatch (Except.error e) env)).balances v
              = (dispatchRequest st (Except.error e) env cost).db.balances v from rfl,
            hsame]
          exact h0 v
        · simp at hok
      · have hgc : (decide (cost ≤ st.balances sms.UserID)) = true ∧
            guarded cost (applyOp cost st (Op.dispatch (Except.ok sms) env)) ops = true := by
          simpa [guarded] using hg
        refine ih _ ?_ hc0 hgc.2
        intro v
        rcases dispatch_balances_cases st (Except.ok sms) env cost v with
          hsame | ⟨hdeb, sms2, hok2, hv2⟩
        · rw [show (applyOp cost st (Op.dispatch (Except.ok sms) env)).balances v
              = (dispatchRequest st (Except.ok sms) env cost).db.balances v from rfl,
            hsame]
          exact h0 v
        · have hs : sms = sms2 := by
            injection hok2
          subst hs
          subst hv2
          rw [show (applyOp cost st (Op.dispatch (Except.ok sms) env)).balances sms.UserID
              = (dispatchRequest st (Except.ok sms) env cost).db.balances sms.UserID
              from rfl, hdeb]
          exact sub_nonneg.mpr (of_decide_eq_true hgc.1)

/-- Closed instance of the C10 amended theorem: one guarded dispatch from a
balance of one hundred leaves the balance non-negative. -/
theorem c10_amended_guarded_nonneg_witness :
    creditsNonneg [Op.dispatch
      (.ok { UserID := 1, PhoneNumberID := 1, ToPhoneNumber := "+1"
             Message := "m", Status := "pending" })
      { beginOk := true, insertOk := true, debitOk := true, ackOk := true
        commitOk := true }] = true ∧
    guarded 5 { rows := [], balances := fun _ => (100 : ℚ) }
      [Op.dispatch
        (.ok { UserID := 1, PhoneNumberID := 1, ToPhoneNumber := "+1"
               Message := "m", Status := "pending" })
        { beginOk := true, insertOk := true, debitOk := true, ackOk := true
          commitOk := true }] = true ∧
    0 ≤ (applyOps 5 { rows := [], balances := fun _ => (100 : ℚ) }
      [Op.dispatch
        (.ok { UserID := 1, PhoneNumberID := 1, ToPhoneNumber := "+1"
               Message := "m", Status := "pending" })
        { beginOk := true, insertOk := true, debitOk := true, ackOk := true
          commitOk := true }]).balances 1 :=
  ⟨by decide, by decide,
   c10_amended_guarded_nonneg 5
     [Op.dispatch
       (.ok { UserID := 1, PhoneNumberID := 1, ToPhoneNumber := "+1"
              Message := "m", Status := "pending" })
       { beginOk := true, insertOk := true, debitOk := true, ackOk := true
         commitOk := true }]
     { rows := [], balances := fun _ => (100 : ℚ) }
     (fun _ => (by decide : (0 : ℚ) ≤ 100)) (by decide) (by decide) 1⟩

end SmsGw
